import Mathlib

/-!
Shallow embedding of the test-harness logic in `tests/conftest.py` of the
OnlineGoldTradingQAAutomationE2E repository: the outcome reconciler
(`pytest_runtest_teardown`), the report store (`_append_json_array`,
`_append_jsonl`), the run aggregator (`pytest_sessionfinish`), the
reachability prober (`_is_reachable`) and the fixture pre-flight gates
(`credentials`, `logged_in_page`).  External collaborators (the standard
library URL parser, the network, the environment, the host test runner)
are passed in as explicit parameters.
-/

namespace Conftest

/-- Outcome values used by the harness.  In the Python source these are the
strings "passed" / "failed" / "skipped" produced by the host runner's phase
reports and stored in each record's `outcome` field. -/
inductive Outcome where
  | passed
  | failed
  | skipped
deriving DecidableEq, Repr

/-- One phase report (`rep.when` ∈ {setup, call, teardown}) as observed by
`pytest_runtest_makereport` and stashed in `item._rep_by_phase`.  The field
`longreprStr` models `str(rep.longrepr)`: `some s` when stringification
returns `s`, `none` when stringification itself raises. -/
structure PhaseReport where
  outcome : Outcome
  duration : Option Rat
  longreprStr : Option String
deriving DecidableEq, Repr

/-- Embeds the helper `_phase_outcome(rep)` in `pytest_runtest_teardown`:
`getattr(rep, "outcome", None) if rep else None`. -/
def phaseOutcome : Option PhaseReport → Option Outcome
  | none => none
  | some r => some r.outcome

/-- Embeds the final-outcome reduction in `pytest_runtest_teardown`
(conftest.py lines 303-313): the `if/elif` chain with priority
setup-failed > call-failed > teardown-failed > (setup or call) skipped >
passed. -/
def finalOutcome (repSetup repCall repTeardown : Option PhaseReport) : Outcome :=
  if phaseOutcome repSetup = some .failed then .failed
  else if phaseOutcome repCall = some .failed then .failed
  else if phaseOutcome repTeardown = some .failed then .failed
  else if phaseOutcome repSetup = some .skipped ∨ phaseOutcome repCall = some .skipped then
    .skipped
  else .passed

/-- Embeds the duration accumulation in `pytest_runtest_teardown` (lines
316-319): sum `float(r.duration)` over the phases that exist and carry a
duration.  (The Python value is a float; durations are modelled as exact
rationals since no claim depends on float rounding.) -/
def totalDuration (repSetup repCall repTeardown : Option PhaseReport) : Rat :=
  [repSetup, repCall, repTeardown].foldl
    (fun acc r =>
      match r with
      | some rep =>
        match rep.duration with
        | some d => acc + d
        | none => acc
      | none => acc)
    0

/-- Placeholder used when `str(r.longrepr)` raises (conftest.py line 329). -/
def stringifyFallback : String := "Test failed (unable to stringify longrepr)."

/-- Embeds the error-extraction loop in `pytest_runtest_teardown` (lines
322-330): walk the reports in the order they are listed — `(rep_call,
rep_setup, rep_teardown)` — and on the first present report whose outcome is
failed, take `str(r.longrepr)`, falling back to the fixed placeholder when
stringification raises; then `break`. -/
def firstFailingError : List (Option PhaseReport) → Option String
  | [] => none
  | none :: rest => firstFailingError rest
  | some r :: rest =>
    if r.outcome = .failed then
      some (r.longreprStr.getD stringifyFallback)
    else
      firstFailingError rest

/-- Embeds the `error_text` computation in `pytest_runtest_teardown` (lines
321-330): `None` unless the final outcome is failed, otherwise the first
failing phase's stringified longrepr in the order (call, setup, teardown). -/
def errorText (repSetup repCall repTeardown : Option PhaseReport) : Option String :=
  if finalOutcome repSetup repCall repTeardown = .failed then
    firstFailingError [repCall, repSetup, repTeardown]
  else none

/-- Specification-side characterization for claim C9: the first phase report,
searched in the order the code lists them — (call, setup, teardown) — that is
present and whose outcome is failed. -/
def firstFailingReport : List (Option PhaseReport) → Option PhaseReport
  | [] => none
  | none :: rest => firstFailingReport rest
  | some r :: rest =>
    if r.outcome = .failed then some r else firstFailingReport rest

/-- Specification-side reduction rule, written from the claim's words: "if
setup failed, the final outcome is failed; else if call failed, failed; else
if teardown failed, failed; else if setup or call is skipped, skipped;
otherwise passed", as a function of the three phase outcomes alone.  Used to
compare the source reduction against the claimed rule. -/
def reduceSpec (s c t : Option Outcome) : Outcome :=
  if s = some .failed then .failed
  else if c = some .failed then .failed
  else if t = some .failed then .failed
  else if s = some .skipped ∨ c = some .skipped then .skipped
  else .passed

/-- JSON values, as stored in the report files (`json.loads` / `json.dumps`
level of structure; numbers are modelled as exact rationals). -/
inductive Json where
  | null
  | bool (b : Bool)
  | num (q : Rat)
  | str (s : String)
  | arr (xs : List Json)
  | obj (fields : List (String × Json))

/-- Content of a report file on disk, as seen through `json.loads`:
the file may be absent, may hold bytes that fail to parse (`json.loads`
raises), or may parse to a JSON value. -/
inductive FileData where
  | absent
  | unparsable
  | json (j : Json)

/-- Embeds `_append_json_array(file_path, record)` (conftest.py lines
93-110): read the file if it exists; on a parse failure or a non-list value
start from an empty list; append the record; rewrite the whole file.  The
function is total — every corrupted prior state is replaced, never raised
on. -/
def _append_json_array (fd : FileData) (record : Json) : FileData :=
  let data : List Json :=
    match fd with
    | .absent => []
    | .unparsable => []
    | .json (.arr xs) => xs
    | .json _ => []
  .json (.arr (data ++ [record]))

/-- Embeds `_append_jsonl(file_path, record)` (conftest.py lines 113-119):
open in append mode and add one JSON record line; prior lines are never
rewritten. -/
def _append_jsonl (lines : List Json) (record : Json) : List Json :=
  lines ++ [record]

/-- Embeds `_safe_filename(text)` (conftest.py lines 80-85): map path
separators, brackets, spaces and colons of a pytest nodeid to safe
substitutes, with `::` handled before `:`. -/
def _safe_filename (text : String) : String :=
  let safe := ((text.replace "/" "__").replace "\\" "__").replace "::" "__"
  let safe := ((safe.replace "[" "_").replace "]" "_").replace " " "_"
  safe.replace ":" "_"

/-- Environment snapshot captured into each record (conftest.py lines
340-345); the values come from `os.getenv` / `platform` and are modelled as
an opaque snapshot parameter of the run. -/
structure EnvSnapshot where
  base_url : String
  headless : String
  python : String
  os : String
deriving DecidableEq, Repr

/-- Run-level metadata attached to the pytest config object by
`pytest_configure` (conftest.py lines 255-257). -/
structure Config where
  run_id : String
  run_started_at : String
deriving DecidableEq, Repr

/-- One test as processed by the teardown hook: its nodeid, the phase
reports collected by `pytest_runtest_makereport` in `item._rep_by_phase`
(any subset of the three phases may be present), and the wall-clock
timestamp at which the record is created. -/
structure TestExec where
  nodeid : String
  repSetup : Option PhaseReport
  repCall : Option PhaseReport
  repTeardown : Option PhaseReport
  recordedAt : String
deriving DecidableEq, Repr

/-- TestExecutionRecord: the single record built per test by
`pytest_runtest_teardown` (conftest.py lines 332-346). -/
structure Record where
  run_id : String
  run_started_at : String
  recorded_at : String
  nodeid : String
  outcome : Outcome
  duration_seconds : Rat
  error : Option String
  environment : EnvSnapshot
deriving DecidableEq, Repr

/-- Embeds the `record = {...}` construction in `pytest_runtest_teardown`:
outcome from the reduction, duration from the phase sum, error from the
error-extraction loop.  (The Python `round(total_duration, 6)` acts on a
float; durations are exact rationals here and no claim depends on the
rounding.) -/
def mkRecord (config : Config) (env : EnvSnapshot) (t : TestExec) : Record :=
  { run_id := config.run_id
    run_started_at := config.run_started_at
    recorded_at := t.recordedAt
    nodeid := t.nodeid
    outcome := finalOutcome t.repSetup t.repCall t.repTeardown
    duration_seconds := totalDuration t.repSetup t.repCall t.repTeardown
    error := errorText t.repSetup t.repCall t.repTeardown
    environment := env }

/-- String form of an outcome, as written into the JSON artifacts. -/
def outcomeString : Outcome → String
  | .passed => "passed"
  | .failed => "failed"
  | .skipped => "skipped"

/-- JSON serialization of a record (`json.dumps` of the record dict). -/
def recordToJson (r : Record) : Json :=
  .obj [("run_id", .str r.run_id),
        ("run_started_at", .str r.run_started_at),
        ("recorded_at", .str r.recorded_at),
        ("nodeid", .str r.nodeid),
        ("outcome", .str (outcomeString r.outcome)),
        ("duration_seconds", .num r.duration_seconds),
        ("error", match r.error with | some e => .str e | none => .null),
        ("environment",
          .obj [("base_url", .str r.environment.base_url),
                ("headless", .str r.environment.headless),
                ("python", .str r.environment.python),
                ("os", .str r.environment.os)])]

/-- The three report sinks mutated across a run: the in-memory
`config._results` list, the per-test JSON array files under
`reports/tests/` (keyed by safe filename), and the global
`reports/history.jsonl` line log. -/
structure RunState where
  results : List Record
  testFiles : String → FileData
  historyLog : List Json

/-- Embeds `pytest_runtest_teardown(item, nextitem)` (conftest.py lines
285-356) for one test, once the config is set: build the single final
record, append it to `config._results`, append it to the test's per-test
JSON array file (named from the safe filename of the nodeid), and append
one line to the global history log. -/
def pytest_runtest_teardown (config : Config) (env : EnvSnapshot)
    (st : RunState) (t : TestExec) : RunState :=
  let record := mkRecord config env t
  { results := st.results ++ [record]
    testFiles := fun name =>
      if name = _safe_filename t.nodeid ++ ".json" then
        _append_json_array (st.testFiles name) (recordToJson record)
      else st.testFiles name
    historyLog := _append_jsonl st.historyLog (recordToJson record) }

/-- Host-runner sequencing: the teardown hook runs exactly once per test, in
execution order, over the run's sink state. -/
def runTests (config : Config) (env : EnvSnapshot)
    (st : RunState) (tests : List TestExec) : RunState :=
  tests.foldl (pytest_runtest_teardown config env) st

/-- Number of records a per-test file holds when read back as a JSON list
(0 when the file is absent, corrupted, or not a list). -/
def fileRecordCount : FileData → Nat
  | .json (.arr xs) => xs.length
  | _ => 0

/-- Totals block of the run summary (conftest.py lines 376-381). -/
structure Totals where
  total : Nat
  passed : Nat
  failed : Nat
  skipped : Nat
deriving DecidableEq, Repr

/-- RunSummary artifact written to `reports/runs/<run_id>.json`
(conftest.py lines 371-383). -/
structure RunSummary where
  run_id : String
  run_started_at : String
  run_finished_at : String
  exitstatus : Int
  totals : Totals
  results : List Record
deriving DecidableEq, Repr

/-- Embeds the Python generator sum `sum(1 for r in results if <cond>)`. -/
def sumOnesWhere (p : Record → Bool) (results : List Record) : Nat :=
  (results.map (fun r => if p r then 1 else 0)).sum

/-- Embeds `pytest_sessionfinish(session, exitstatus)` (conftest.py lines
359-386): build the run summary from the collected `config._results`, with
the totals computed at flush time from the records. -/
def pytest_sessionfinish (config : Config) (runFinishedAt : String)
    (exitstatus : Int) (results : List Record) : RunSummary :=
  { run_id := config.run_id
    run_started_at := config.run_started_at
    run_finished_at := runFinishedAt
    exitstatus := exitstatus
    totals :=
      { total := results.length
        passed := sumOnesWhere (fun r => r.outcome == .passed) results
        failed := sumOnesWhere (fun r => r.outcome == .failed) results
        skipped := sumOnesWhere (fun r => r.outcome == .skipped) results }
    results := results }

/-- Result of `urlparse(url)` as consumed by `_is_reachable` through the
`.scheme`, `.hostname` and `.port` accessors.  `hostname` is `none` when the
URL has no host; `port` is `none` when no explicit port is given. -/
structure ParsedUrl where
  scheme : String
  hostname : Option String
  port : Option Nat
deriving DecidableEq, Repr

/-- Result of `socket.create_connection((host, port), timeout=...)`:
success, or one of the exception classes the claim enumerates (all of which
the `except Exception` clause catches alike). -/
inductive ConnectResult where
  | ok
  | refused
  | timedOut
  | resolutionFailed
deriving DecidableEq, Repr

/-- Embeds `_is_reachable(url, timeout_seconds=2.0)` (conftest.py lines
126-145).  The standard-library URL parser and the network are external
collaborators passed as parameters: `parseUrl url = none` models `urlparse`
or the `.port` accessor raising (caught by the surrounding `try`), and
`connect host port timeout` models `socket.create_connection`.  The Python
`if not host` check treats both a missing and an empty hostname as falsy;
the default port is 443 for the https scheme and 80 otherwise; every failure
path returns `false` rather than raising. -/
def _is_reachable (parseUrl : String → Option ParsedUrl)
    (connect : String → Nat → Rat → ConnectResult) (url : String) : Bool :=
  match parseUrl url with
  | none => false
  | some parsed =>
    match parsed.hostname with
    | none => false
    | some host =>
      if host = "" then false
      else
        let port : Nat :=
          match parsed.port with
          | some p => p
          | none => if parsed.scheme = "https" then 443 else 80
        match connect host port 2 with
        | .ok => true
        | .refused => false
        | .timedOut => false
        | .resolutionFailed => false

/-- Credentials dict built by the `credentials` fixture. -/
structure Credentials where
  username : String
  password : String
deriving DecidableEq, Repr

/-- Model of Python's `str.strip()` with no argument: remove leading and
trailing whitespace characters.  (Lean's `Char.isWhitespace` covers space,
tab, carriage return and newline; Python's default strip set additionally
includes a few rarer unicode space characters, which no claim exercises.) -/
def pyStrip (s : String) : String :=
  String.mk
    ((s.data.dropWhile Char.isWhitespace).reverse.dropWhile Char.isWhitespace).reverse

/-- Embeds the `credentials` fixture (conftest.py lines 161-170): read
`TEST_USER` / `TEST_PASS` from the environment with default `""` and strip
surrounding whitespace with `str.strip()`. -/
def credentials (getenv : String → Option String) : Credentials :=
  { username := pyStrip ((getenv "TEST_USER").getD "")
    password := pyStrip ((getenv "TEST_PASS").getD "") }

/-- Page-level side effects the `logged_in_page` fixture can perform after
its pre-flight gates. -/
inductive PageAction where
  | goto (url : String)
  | login (username password : String)
deriving DecidableEq, Repr

/-- Result of fixture setup: either a skip signal with its reason (raised by
`pytest.skip`) or successful completion. -/
inductive FixtureResult where
  | skip (reason : String)
  | ok
deriving DecidableEq, Repr

/-- The fixture's observable behaviour: its setup result plus the ordered
page actions it performed. -/
structure FixtureRun where
  result : FixtureResult
  actions : List PageAction
deriving DecidableEq, Repr

/-- Skip reason for an unreachable base URL (conftest.py lines 225-228): the
f-string followed by the adjacent literal. -/
def unreachableReason (base_url : String) : String :=
  "BASE_URL not reachable: " ++ base_url ++
    ". Start your local app (if using localhost) or set BASE_URL to a reachable staging/demo URL."

/-- Skip reason for missing credentials (conftest.py line 232). -/
def missingCredsReason : String :=
  "Missing TEST_USER/TEST_PASS in .env. Please set them before running UI tests."

/-- Embeds the `logged_in_page` fixture (conftest.py lines 214-239): skip
when the base URL is not reachable; otherwise skip when the username or the
password is empty; otherwise navigate to the base URL and log in with the
credentials. -/
def logged_in_page (parseUrl : String → Option ParsedUrl)
    (connect : String → Nat → Rat → ConnectResult)
    (base_url : String) (creds : Credentials) : FixtureRun :=
  if !(_is_reachable parseUrl connect base_url) then
    { result := .skip (unreachableReason base_url), actions := [] }
  else if creds.username = "" ∨ creds.password = "" then
    { result := .skip missingCredsReason, actions := [] }
  else
    { result := .ok,
      actions := [.goto base_url, .login creds.username creds.password] }

/-- Helper: appending to a per-test file always grows the readable record
count by exactly one, whatever the prior content was. -/
lemma fileRecordCount_append (fd : FileData) (r : Json) :
    fileRecordCount (_append_json_array fd r) = fileRecordCount fd + 1 := by
  cases fd with
  | absent => rfl
  | unparsable => rfl
  | json j => cases j <;> simp [_append_json_array, fileRecordCount]

/-- Helper: once a per-test file holds a JSON array, further appends extend
that array in order. -/
lemma foldl_append_json_array_arr (rs : List Json) :
    ∀ acc : List Json,
      rs.foldl _append_json_array (.json (.arr acc)) = .json (.arr (acc ++ rs)) := by
  induction rs with
  | nil => intro acc; simp
  | cons r rest ih =>
    intro acc
    have step : _append_json_array (.json (.arr acc)) r = .json (.arr (acc ++ [r])) := rfl
    simp only [List.foldl_cons, step, ih]
    simp

/-- Helper: the generator sum `sum(1 for r in results if p(r))` counts the
records satisfying the predicate. -/
lemma sumOnesWhere_eq_length_filter (p : Record → Bool) (results : List Record) :
    sumOnesWhere p results = (results.filter p).length := by
  induction results with
  | nil => rfl
  | cons r rest ih =>
    simp only [sumOnesWhere, List.map_cons, List.sum_cons, List.filter_cons] at ih ⊢
    by_cases hp : p r <;> simp [hp] <;> omega

/-- Helper: the reduction yields failed exactly when one of the three phase
reports is present and failed. -/
lemma finalOutcome_eq_failed_iff (s c t : Option PhaseReport) :
    finalOutcome s c t = .failed ↔
      (phaseOutcome s = some .failed ∨ phaseOutcome c = some .failed ∨
        phaseOutcome t = some .failed) := by
  unfold finalOutcome
  by_cases hs : phaseOutcome s = some .failed <;>
    by_cases hc : phaseOutcome c = some .failed <;>
      by_cases ht : phaseOutcome t = some .failed <;>
        (simp [hs, hc, ht]; try (split <;> simp))

/-- Helper: the error-extraction loop returns exactly the stringification
(with its placeholder fallback) of the first failing report. -/
lemma firstFailingError_eq_map (l : List (Option PhaseReport)) :
    firstFailingError l =
      (firstFailingReport l).map (fun r => r.longreprStr.getD stringifyFallback) := by
  induction l with
  | nil => rfl
  | cons hd rest ih =>
    cases hd with
    | none => simpa [firstFailingError, firstFailingReport] using ih
    | some r =>
      by_cases hr : r.outcome = .failed <;>
        simp [firstFailingError, firstFailingReport, hr, ih]

/-- Helper: the first-failing search over (call, setup, teardown) finds a
report exactly when one of the three phases is present and failed. -/
lemma firstFailingReport_isSome_iff (s c t : Option PhaseReport) :
    (firstFailingReport [c, s, t]).isSome ↔
      (phaseOutcome s = some .failed ∨ phaseOutcome c = some .failed ∨
        phaseOutcome t = some .failed) := by
  rcases c with _ | rc <;> rcases s with _ | rs <;> rcases t with _ | rt <;>
    simp only [firstFailingReport, phaseOutcome] <;>
    (try by_cases h1 : rc.outcome = .failed) <;>
    (try by_cases h2 : rs.outcome = .failed) <;>
    (try by_cases h3 : rt.outcome = .failed) <;>
    simp_all [firstFailingReport]

end Conftest

namespace Conftest

/-- Claim C1: the outcome reduction is a deterministic function of the three
phase outcomes with first-match priority (setup failed → failed; else call
failed → failed; else teardown failed → failed; else setup or call skipped →
skipped; else passed), and in particular (passed, failed, passed) reduces to
failed, (skipped, absent, absent) reduces to skipped, and (passed, passed,
passed) reduces to passed. -/
theorem final_outcome_matches_priority_rule :
    (∀ repSetup repCall repTeardown : Option PhaseReport,
      finalOutcome repSetup repCall repTeardown =
        reduceSpec (phaseOutcome repSetup) (phaseOutcome repCall)
          (phaseOutcome repTeardown)) ∧
    finalOutcome (some ⟨.passed, none, none⟩) (some ⟨.failed, none, none⟩)
        (some ⟨.passed, none, none⟩) = .failed ∧
    finalOutcome (some ⟨.skipped, none, none⟩) none none = .skipped ∧
    finalOutcome (some ⟨.passed, none, none⟩) (some ⟨.passed, none, none⟩)
        (some ⟨.passed, none, none⟩) = .passed := by
  refine ⟨fun s c t => ?_, by decide, by decide, by decide⟩
  simp only [finalOutcome, reduceSpec]

/-- Claim C2 counterexample: a test whose setup phase is skipped but whose
teardown phase reports failed is reduced to failed, not skipped — the
teardown-failed branch of the reduction fires before the skip branch, so the
skip classification does not take priority over a teardown failure. -/
theorem skip_does_not_override_teardown_failure :
    finalOutcome (some ⟨.skipped, none, none⟩) none (some ⟨.failed, none, none⟩) = .failed ∧
    finalOutcome (some ⟨.skipped, none, none⟩) none (some ⟨.failed, none, none⟩) ≠ .skipped := by
  constructor <;> decide

/-- Claim C2 (amended): for every test whose setup or call phase is skipped
and whose setup and call phases did not fail, the final outcome is skipped
when the teardown phase did not report failed, and failed when the teardown
phase reported failed — a teardown failure takes priority over the skip
classification. -/
theorem skip_reduction_conditional_on_teardown :
    ∀ repSetup repCall repTeardown : Option PhaseReport,
      phaseOutcome repSetup ≠ some .failed →
      phaseOutcome repCall ≠ some .failed →
      (phaseOutcome repSetup = some .skipped ∨ phaseOutcome repCall = some .skipped) →
      (phaseOutcome repTeardown ≠ some .failed →
        finalOutcome repSetup repCall repTeardown = .skipped) ∧
      (phaseOutcome repTeardown = some .failed →
        finalOutcome repSetup repCall repTeardown = .failed) := by
  intro s c t hs hc hskip
  constructor
  · intro ht
    simp [finalOutcome, hs, hc, ht, hskip]
  · intro ht
    simp [finalOutcome, hs, hc, ht]

/-- Claim C2 (amended) witness: concrete instances with a skipped setup
phase, one with a passing teardown (reduced to skipped) and one with a
failing teardown (reduced to failed). -/
theorem skip_reduction_conditional_on_teardown_witness :
    finalOutcome (some ⟨.skipped, none, none⟩) none (some ⟨.passed, none, none⟩) = .skipped ∧
    finalOutcome (some ⟨.skipped, none, none⟩) none (some ⟨.failed, none, none⟩) = .failed :=
  ⟨(skip_reduction_conditional_on_teardown (some ⟨.skipped, none, none⟩) none
      (some ⟨.passed, none, none⟩) (by decide) (by decide) (by decide)).1 (by decide),
   (skip_reduction_conditional_on_teardown (some ⟨.skipped, none, none⟩) none
      (some ⟨.failed, none, none⟩) (by decide) (by decide) (by decide)).2 (by decide)⟩

/-- Claim C9: a record's error field is populated exactly when its final
outcome is failed; when populated it is the stringified failure
representation of the first failing phase in the order (call, setup,
teardown), with the fixed placeholder substituted when stringification
raises. -/
theorem record_error_iff_failed :
    ∀ (config : Config) (env : EnvSnapshot) (t : TestExec),
      ((mkRecord config env t).error.isSome ↔
        (mkRecord config env t).outcome = .failed) ∧
      (∀ r : PhaseReport,
        firstFailingReport [t.repCall, t.repSetup, t.repTeardown] = some r →
          (mkRecord config env t).error =
            some (r.longreprStr.getD stringifyFallback)) := by
  intro config env t
  constructor
  · simp only [mkRecord]
    unfold errorText
    by_cases h : finalOutcome t.repSetup t.repCall t.repTeardown = .failed
    · simp [h, firstFailingError_eq_map, firstFailingReport_isSome_iff,
        (finalOutcome_eq_failed_iff _ _ _).mp h]
    · simp [h]
  · intro r hr
    have hsome : (firstFailingReport [t.repCall, t.repSetup, t.repTeardown]).isSome := by
      simp [hr]
    have hfail : finalOutcome t.repSetup t.repCall t.repTeardown = .failed :=
      (finalOutcome_eq_failed_iff _ _ _).mpr
        ((firstFailingReport_isSome_iff _ _ _).mp hsome)
    simp [mkRecord, errorText, hfail, firstFailingError_eq_map, hr]

/-- Claim C9 witness: a test whose call phase failed with stringification
returning "boom" gets error "boom", and a test with a failing setup whose
stringification raises gets the fixed placeholder. -/
theorem record_error_iff_failed_witness :
    (mkRecord ⟨"run_1", "t0"⟩ ⟨"u", "true", "3", "linux"⟩
        ⟨"tests/a.py::t", some ⟨.passed, none, none⟩,
          some ⟨.failed, none, some "boom"⟩, some ⟨.passed, none, none⟩,
          "t1"⟩).error = some "boom" ∧
    (mkRecord ⟨"run_1", "t0"⟩ ⟨"u", "true", "3", "linux"⟩
        ⟨"tests/a.py::t", some ⟨.failed, none, none⟩, none, none,
          "t1"⟩).error = some stringifyFallback :=
  ⟨(record_error_iff_failed ⟨"run_1", "t0"⟩ ⟨"u", "true", "3", "linux"⟩
      ⟨"tests/a.py::t", some ⟨.passed, none, none⟩,
        some ⟨.failed, none, some "boom"⟩, some ⟨.passed, none, none⟩,
        "t1"⟩).2 ⟨.failed, none, some "boom"⟩ (by decide),
   (record_error_iff_failed ⟨"run_1", "t0"⟩ ⟨"u", "true", "3", "linux"⟩
      ⟨"tests/a.py::t", some ⟨.failed, none, none⟩, none, none,
        "t1"⟩).2 ⟨.failed, none, none⟩ (by decide)⟩

/-- Claim C3: each test processed by the teardown hook contributes exactly
one record, in execution order, to each of the three sinks: the in-memory
results list and the global history log each grow by exactly the per-test
records (no omission, no duplication), and every per-test file's readable
record count grows by exactly the number of tests that map to it. -/
theorem one_record_per_test :
    ∀ (config : Config) (env : EnvSnapshot) (st : RunState) (tests : List TestExec),
      (runTests config env st tests).results =
        st.results ++ tests.map (mkRecord config env) ∧
      (runTests config env st tests).historyLog =
        st.historyLog ++ tests.map (fun t => recordToJson (mkRecord config env t)) ∧
      (∀ name : String,
        fileRecordCount ((runTests config env st tests).testFiles name) =
          fileRecordCount (st.testFiles name) +
            tests.countP (fun t => _safe_filename t.nodeid ++ ".json" == name)) := by
  intro config env st tests
  induction tests generalizing st with
  | nil => simp [runTests]
  | cons t ts ih =>
    have hstep : runTests config env st (t :: ts) =
        runTests config env (pytest_runtest_teardown config env st t) ts := rfl
    obtain ⟨ihr, ihh, ihf⟩ := ih (pytest_runtest_teardown config env st t)
    refine ⟨?_, ?_, ?_⟩
    · rw [hstep, ihr]
      simp [pytest_runtest_teardown]
    · rw [hstep, ihh]
      simp [pytest_runtest_teardown, _append_jsonl]
    · intro name
      rw [hstep, ihf name, List.countP_cons]
      by_cases hn : _safe_filename t.nodeid ++ ".json" = name
      · simp [pytest_runtest_teardown, hn, fileRecordCount_append]
        omega
      · have hbeq : (_safe_filename t.nodeid ++ ".json" == name) = false := by
          simp [hn]
        simp [pytest_runtest_teardown, hbeq]
        rw [if_neg (fun h => hn h.symm)]

/-- Claim C4: appending to a per-test history file whose prior content does
not parse as a JSON list discards the prior content and never fails: the
first append leaves exactly a one-element JSON array, and appending the
first and N-1 further records leaves exactly an N-element JSON array. -/
theorem append_json_array_recovers_corrupted :
    ∀ (fd : FileData) (r : Json) (rs : List Json),
      (∀ xs : List Json, fd ≠ .json (.arr xs)) →
      _append_json_array fd r = .json (.arr [r]) ∧
      (r :: rs).foldl _append_json_array fd = .json (.arr (r :: rs)) ∧
      fileRecordCount ((r :: rs).foldl _append_json_array fd) = rs.length + 1 := by
  intro fd r rs hfd
  have hfirst : _append_json_array fd r = .json (.arr [r]) := by
    cases fd with
    | absent => rfl
    | unparsable => rfl
    | json j =>
      cases j with
      | arr xs => exact absurd rfl (hfd xs)
      | null => rfl
      | bool b => rfl
      | num q => rfl
      | str s => rfl
      | obj fields => rfl
  have hfold : (r :: rs).foldl _append_json_array fd = .json (.arr (r :: rs)) := by
    simp only [List.foldl_cons, hfirst]
    simpa using foldl_append_json_array_arr rs [r]
  refine ⟨hfirst, hfold, ?_⟩
  rw [hfold]
  simp [fileRecordCount]

/-- Claim C4 witness: starting from a file containing the JSON string
"not a list", one append yields a one-element array and three appends yield
a three-element array. -/
theorem append_json_array_recovers_corrupted_witness :
    _append_json_array (.json (.str "not a list")) (.num 1) = .json (.arr [.num 1]) ∧
    [Json.num 1, Json.num 2, Json.num 3].foldl _append_json_array
        (.json (.str "not a list")) = .json (.arr [.num 1, .num 2, .num 3]) ∧
    fileRecordCount ([Json.num 1, Json.num 2, Json.num 3].foldl _append_json_array
        (.json (.str "not a list"))) = 3 := by
  have h := append_json_array_recovers_corrupted (.json (.str "not a list"))
    (.num 1) [.num 2, .num 3] (fun xs hx => by simp at hx)
  exact ⟨h.1, h.2.1, h.2.2⟩

/-- Claim C5: the flushed run summary returns the collected records
unchanged and in order, its total equals their number, and each of the
passed/failed/skipped totals equals the number of collected records whose
outcome has that value — the totals are a function of the records at flush
time. -/
theorem run_summary_totals_correct :
    ∀ (config : Config) (runFinishedAt : String) (exitstatus : Int)
      (results : List Record),
      (pytest_sessionfinish config runFinishedAt exitstatus results).results =
        results ∧
      (pytest_sessionfinish config runFinishedAt exitstatus results).totals.total =
        results.length ∧
      (pytest_sessionfinish config runFinishedAt exitstatus results).totals.passed =
        (results.filter (fun r => r.outcome == .passed)).length ∧
      (pytest_sessionfinish config runFinishedAt exitstatus results).totals.failed =
        (results.filter (fun r => r.outcome == .failed)).length ∧
      (pytest_sessionfinish config runFinishedAt exitstatus results).totals.skipped =
        (results.filter (fun r => r.outcome == .skipped)).length := by
  intro config runFinishedAt exitstatus results
  refine ⟨rfl, rfl, ?_, ?_, ?_⟩ <;>
    simp [pytest_sessionfinish, sumOnesWhere_eq_length_filter]

/-- Claim C6: the reachability prober is total (it returns a boolean on
every input, never raising); a parse failure, a missing or empty hostname,
or any connection failure yields false; with an explicit port the probe
succeeds exactly when connecting to that port succeeds; and without an
explicit port it probes 443 for the https scheme and 80 otherwise. -/
theorem is_reachable_total_and_default_ports :
    ∀ (parseUrl : String → Option ParsedUrl)
      (connect : String → Nat → Rat → ConnectResult) (url : String),
      (_is_reachable parseUrl connect url = true ∨
        _is_reachable parseUrl connect url = false) ∧
      (parseUrl url = none → _is_reachable parseUrl connect url = false) ∧
      (∀ parsed : ParsedUrl, parseUrl url = some parsed → parsed.hostname = none →
        _is_reachable parseUrl connect url = false) ∧
      (∀ parsed : ParsedUrl, parseUrl url = some parsed → parsed.hostname = some "" →
        _is_reachable parseUrl connect url = false) ∧
      (∀ (parsed : ParsedUrl) (host : String) (port : Nat),
        parseUrl url = some parsed → parsed.hostname = some host → host ≠ "" →
        parsed.port = some port →
        (_is_reachable parseUrl connect url = true ↔ connect host port 2 = .ok)) ∧
      (∀ (parsed : ParsedUrl) (host : String),
        parseUrl url = some parsed → parsed.hostname = some host → host ≠ "" →
        parsed.port = none →
        (_is_reachable parseUrl connect url = true ↔
          connect host (if parsed.scheme = "https" then 443 else 80) 2 = .ok)) := by
  intro parseUrl connect url
  refine ⟨?_, ?_, ?_, ?_, ?_, ?_⟩
  · cases _is_reachable parseUrl connect url
    · exact Or.inr rfl
    · exact Or.inl rfl
  · intro hp
    simp [_is_reachable, hp]
  · intro parsed hp hh
    simp [_is_reachable, hp, hh]
  · intro parsed hp hh
    simp [_is_reachable, hp, hh]
  · intro parsed host port hp hh hne hport
    simp only [_is_reachable, hp, hh, if_neg hne, hport]
    cases hc : connect host port 2 <;> simp [hc]
  · intro parsed host hp hh hne hport
    simp only [_is_reachable, hp, hh, if_neg hne, hport]
    cases hc : connect host (if parsed.scheme = "https" then 443 else 80) 2 <;>
      simp [hc]

/-- Claim C6 witness: concrete prober runs — an https URL without explicit
port probing 443 successfully, the same setup where the connection times
out, and a URL whose parse fails. -/
theorem is_reachable_total_and_default_ports_witness :
    _is_reachable (fun _ => some ⟨"https", some "example.com", none⟩)
        (fun _ p _ => if p = 443 then .ok else .refused) "https://example.com" = true ∧
    _is_reachable (fun _ => some ⟨"https", some "example.com", none⟩)
        (fun _ _ _ => .timedOut) "https://example.com" = false ∧
    _is_reachable (fun _ => none) (fun _ _ _ => .ok) "http://[bad" = false :=
  ⟨((is_reachable_total_and_default_ports
        (fun _ => some ⟨"https", some "example.com", none⟩)
        (fun _ p _ => if p = 443 then .ok else .refused)
        "https://example.com").2.2.2.2.2 ⟨"https", some "example.com", none⟩
      "example.com" rfl rfl (by decide) rfl).mpr (by decide),
   by
    rcases (is_reachable_total_and_default_ports
        (fun _ => some ⟨"https", some "example.com", none⟩)
        (fun _ _ _ => ConnectResult.timedOut) "https://example.com").1 with h | h
    · exact absurd (((is_reachable_total_and_default_ports
          (fun _ => some ⟨"https", some "example.com", none⟩)
          (fun _ _ _ => ConnectResult.timedOut)
          "https://example.com").2.2.2.2.2 ⟨"https", some "example.com", none⟩
        "example.com" rfl rfl (by decide) rfl).mp h) (by decide)
    · exact h,
   (is_reachable_total_and_default_ports (fun _ => none) (fun _ _ _ => .ok)
      "http://[bad").2.1 rfl⟩

/-- Claim C7: when the base URL is unreachable the authenticated-page
fixture skips with a reason that contains the base URL, performs no page
action (the test body is never entered), and the reduction classifies a test
whose setup was skipped — its call phase absent, its teardown absent or
passed — as skipped, never failed. -/
theorem unreachable_skips_with_reason :
    ∀ (parseUrl : String → Option ParsedUrl)
      (connect : String → Nat → Rat → ConnectResult)
      (base_url : String) (creds : Credentials),
      _is_reachable parseUrl connect base_url = false →
      (logged_in_page parseUrl connect base_url creds).result =
        .skip (unreachableReason base_url) ∧
      (∃ p q : String, unreachableReason base_url = p ++ base_url ++ q) ∧
      (logged_in_page parseUrl connect base_url creds).actions = [] ∧
      (∀ d l, finalOutcome (some ⟨.skipped, d, l⟩) none none = .skipped) ∧
      (∀ d l d2 l2,
        finalOutcome (some ⟨.skipped, d, l⟩) none (some ⟨.passed, d2, l2⟩) =
          .skipped) := by
  intro parseUrl connect base_url creds hr
  refine ⟨?_, ?_, ?_, ?_, ?_⟩
  · simp [logged_in_page, hr]
  · exact ⟨"BASE_URL not reachable: ",
      ". Start your local app (if using localhost) or set BASE_URL to a reachable staging/demo URL.",
      rfl⟩
  · simp [logged_in_page, hr]
  · intro d l
    simp [finalOutcome, phaseOutcome]
  · intro d l d2 l2
    simp [finalOutcome, phaseOutcome]

/-- Claim C7 witness: with a URL that fails to parse (hence unreachable),
the fixture skips with the unreachable reason and performs no action. -/
theorem unreachable_skips_with_reason_witness :
    (logged_in_page (fun _ => none) (fun _ _ _ => .ok) "http://localhost:3000"
        ⟨"user", "pass"⟩).result =
      .skip (unreachableReason "http://localhost:3000") ∧
    (logged_in_page (fun _ => none) (fun _ _ _ => .ok) "http://localhost:3000"
        ⟨"user", "pass"⟩).actions = [] :=
  ⟨(unreachable_skips_with_reason (fun _ => none) (fun _ _ _ => .ok)
      "http://localhost:3000" ⟨"user", "pass"⟩ rfl).1,
   (unreachable_skips_with_reason (fun _ => none) (fun _ _ _ => .ok)
      "http://localhost:3000" ⟨"user", "pass"⟩ rfl).2.2.1⟩

/-- Claim C8: with a reachable base URL and an empty username or password,
the authenticated-page fixture skips with the missing-credentials reason,
which differs from the unreachable reason for every base URL; no page action
(in particular no goto) is performed; and the reachability gate is checked
first — when the URL is unreachable the skip carries the unreachable reason
regardless of the credentials. -/
theorem missing_credentials_skip_before_navigation :
    ∀ (parseUrl : String → Option ParsedUrl)
      (connect : String → Nat → Rat → ConnectResult)
      (base_url : String) (creds : Credentials),
      _is_reachable parseUrl connect base_url = true →
      (creds.username = "" ∨ creds.password = "") →
      (logged_in_page parseUrl connect base_url creds).result =
        .skip missingCredsReason ∧
      (logged_in_page parseUrl connect base_url creds).actions = [] ∧
      (∀ u : String, missingCredsReason ≠ unreachableReason u) ∧
      (∀ (parseUrl2 : String → Option ParsedUrl)
        (connect2 : String → Nat → Rat → ConnectResult)
        (base2 : String) (creds2 : Credentials),
        _is_reachable parseUrl2 connect2 base2 = false →
        (logged_in_page parseUrl2 connect2 base2 creds2).result =
          .skip (unreachableReason base2)) := by
  intro parseUrl connect base_url creds hr hcred
  refine ⟨?_, ?_, ?_, ?_⟩
  · simp [logged_in_page, hr, hcred]
  · simp [logged_in_page, hr, hcred]
  · intro u h
    have h1 : missingCredsReason.data.head? = (unreachableReason u).data.head? := by
      rw [h]
    have h2 : missingCredsReason.data.head? = some 'M' := rfl
    have h3 : (unreachableReason u).data.head? = some 'B' := rfl
    rw [h2, h3] at h1
    exact absurd h1 (by decide)
  · intro parseUrl2 connect2 base2 creds2 hr2
    simp [logged_in_page, hr2]

/-- Claim C8 witness: with a reachable URL and an empty password the fixture
skips with the missing-credentials reason and performs no action. -/
theorem missing_credentials_skip_before_navigation_witness :
    (logged_in_page (fun _ => some ⟨"http", some "localhost", some 3000⟩)
        (fun _ _ _ => .ok) "http://localhost:3000" ⟨"user", ""⟩).result =
      .skip missingCredsReason ∧
    (logged_in_page (fun _ => some ⟨"http", some "localhost", some 3000⟩)
        (fun _ _ _ => .ok) "http://localhost:3000" ⟨"user", ""⟩).actions = [] :=
  ⟨(missing_credentials_skip_before_navigation
      (fun _ => some ⟨"http", some "localhost", some 3000⟩) (fun _ _ _ => .ok)
      "http://localhost:3000" ⟨"user", ""⟩ rfl (Or.inr rfl)).1,
   (missing_credentials_skip_before_navigation
      (fun _ => some ⟨"http", some "localhost", some 3000⟩) (fun _ _ _ => .ok)
      "http://localhost:3000" ⟨"user", ""⟩ rfl (Or.inr rfl)).2.1⟩

/-- Claim C10: credential values are whitespace-stripped when read from the
environment, so a whitespace-only TEST_USER or TEST_PASS yields the same
credentials as when the variable is absent, and — with a reachable base
URL — triggers the missing-credentials skip of the authenticated-page
fixture. -/
theorem whitespace_credentials_treated_as_absent :
    ∀ (getenv : String → Option String) (w : String),
      pyStrip w = "" →
      (getenv "TEST_USER" = some w →
        (credentials getenv).username = "" ∧
        credentials getenv =
          credentials (fun k => if k = "TEST_USER" then none else getenv k)) ∧
      (getenv "TEST_PASS" = some w →
        (credentials getenv).password = "" ∧
        credentials getenv =
          credentials (fun k => if k = "TEST_PASS" then none else getenv k)) ∧
      (∀ (parseUrl : String → Option ParsedUrl)
        (connect : String → Nat → Rat → ConnectResult) (base_url : String),
        _is_reachable parseUrl connect base_url = true →
        (getenv "TEST_USER" = some w ∨ getenv "TEST_PASS" = some w) →
        (logged_in_page parseUrl connect base_url (credentials getenv)).result =
          .skip missingCredsReason) := by
  intro getenv w hw
  have hnil : pyStrip "" = "" := rfl
  refine ⟨fun hu => ⟨?_, ?_⟩, fun hp => ⟨?_, ?_⟩, ?_⟩
  · simp [credentials, hu, hw]
  · simp [credentials, hu, hw, hnil]
  · simp [credentials, hp, hw]
  · simp [credentials, hp, hw, hnil]
  · intro parseUrl connect base_url hr hcase
    have hempty : (credentials getenv).username = "" ∨
        (credentials getenv).password = "" := by
      rcases hcase with hu | hp
      · exact Or.inl (by simp [credentials, hu, hw])
      · exact Or.inr (by simp [credentials, hp, hw])
    simp [logged_in_page, hr, hempty]

/-- Claim C10 witness: a TEST_USER consisting of three spaces is stripped to
the empty string, equals the absent-variable credentials, and makes the
fixture skip with the missing-credentials reason. -/
theorem whitespace_credentials_treated_as_absent_witness :
    (credentials (fun k => if k = "TEST_USER" then some "   "
        else if k = "TEST_PASS" then some "secret" else none)).username = "" ∧
    (logged_in_page (fun _ => some ⟨"http", some "localhost", some 3000⟩)
        (fun _ _ _ => .ok) "http://localhost:3000"
        (credentials (fun k => if k = "TEST_USER" then some "   "
          else if k = "TEST_PASS" then some "secret" else none))).result =
      .skip missingCredsReason :=
  ⟨((whitespace_credentials_treated_as_absent
      (fun k => if k = "TEST_USER" then some "   "
        else if k = "TEST_PASS" then some "secret" else none)
      "   " (by decide)).1 (by decide)).1,
   (whitespace_credentials_treated_as_absent
      (fun k => if k = "TEST_USER" then some "   "
        else if k = "TEST_PASS" then some "secret" else none)
      "   " (by decide)).2.2
      (fun _ => some ⟨"http", some "localhost", some 3000⟩) (fun _ _ _ => .ok)
      "http://localhost:3000" rfl (Or.inl (by decide))⟩

end Conftest
